import Mathlib

/-!
Verification of the phishing-detector browser extension
(src/build/background.js and src/content.js).

The scoring core is shallowly embedded: every definition below mirrors one
JavaScript function of the source, line by line.  JavaScript strings are
modelled as Lean `String` (operating on their `List Char` data), JS numbers
occurring in the scorer are all integers, modelled as `Int`.  A JS regex of
the shape word1.*word2 (flag i) is modelled by `containsSeq`, which tests
whether the words occur in order in the lowercased input; `.` is modelled as
matching any character (URLs contain no newline, the only character JS `.`
excludes).  `Char.toLower` models JS toLowerCase on the ASCII strings the
detector manipulates.

The browser's URL parser (`new URL`) is a platform API, not repository code:
a parsed URL is modelled by the `URLObj` record of the components the code
reads, and a parse attempt by an `Option URLObj` (with `none` for a throw).
-/

namespace Phishing

/-- The component fields of a JS `URL` object that the detector reads. -/
structure URLObj where
  protocol : String
  hostname : String
  pathname : String
  search : String
  href : String
deriving DecidableEq

/-- JS `s.toLowerCase()` (ASCII case mapping). -/
def lowerStr (s : String) : String := ⟨s.data.map Char.toLower⟩

/-- Occurrence of `pat` anywhere in `s` as lists of characters:
there is a position `i` at which `pat` starts. -/
def includesL (pat s : List Char) : Bool :=
  (List.range (s.length + 1)).any fun i => pat.isPrefixOf (s.drop i)

/-- JS `s.includes(pat)` (substring test). -/
def strIncludes (s pat : String) : Bool := includesL pat.data s.data

/-- JS `s.endsWith(suffixStr)`. -/
def strEndsWith (s suffixStr : String) : Bool := suffixStr.data.isSuffixOf s.data

/-- Matcher for a JS regex of the shape w1.*w2.*...*wn : the words occur in
this order, without overlap, somewhere in the input. -/
def containsSeq : List (List Char) → List Char → Bool
  | [], _ => true
  | w :: ws, s =>
    (List.range (s.length + 1)).any fun i =>
      w.isPrefixOf (s.drop i) && containsSeq ws ((s.drop i).drop w.length)

/-- The whitelist of background.js lines 25-28. -/
def whitelistedDomains : List String :=
  ["google.com", "facebook.com", "microsoft.com", "apple.com",
   "amazon.com", "github.com", "stackoverflow.com", "wikipedia.org"]

/-- The eight phishing-language regexes of background.js lines 32-41,
each given by its sequence of anchor words (the regexes have the shape
word1.*word2 with flag i). -/
def phishingPatterns : List (List String) :=
  [["secure", "verify"],
   ["account", "suspended"],
   ["click", "here", "immediately"],
   ["urgent", "action", "required"],
   ["verify", "identity"],
   ["update", "payment"],
   ["suspicious", "activity"],
   ["limited", "time"]]

/-- One phishing regex applied with flag i: the input is lowercased (the
anchor words are all lower case, so this models case-insensitivity). -/
def regexTest (words : List String) (s : String) : Bool :=
  containsSeq (words.map String.data) (lowerStr s).data

/-- background.js `detectHomograph`: the regex of Cyrillic and Greek
character ranges (the Cyrillic range appears twice in the source). -/
def detectHomograph (domain : String) : Bool :=
  domain.data.any fun c => ('а' ≤ c && c ≤ 'я') || ('α' ≤ c && c ≤ 'ω')

/-- The PayPal look-alike substrings of background.js lines 353-365. -/
def paypalVariants : List String :=
  ["paypa1", "paypaI", "payp4l", "p4ypal", "payp@l",
   "paypai", "papyal", "payapl", "paipal", "paypal1", "paypal-"]

/-- background.js `detectPayPalImpersonation`. -/
def detectPayPalImpersonation (domain : String) : Bool :=
  paypalVariants.any fun variant => strIncludes domain variant

/-- The character-substitution table of background.js lines 382-391
(original character, fake character). -/
def substitutions : List (Char × Char) :=
  [('o', '0'), ('l', '1'), ('l', 'I'), ('a', '@'),
   ('a', '4'), ('e', '3'), ('s', '5'), ('g', '9')]

/-- The short brand list of background.js line 393. -/
def brands : List String :=
  ["paypal", "amazon", "google", "facebook", "microsoft", "apple"]

/-- background.js `detectCharacterSubstitution`: JS
`brand.replace(new RegExp(sub.original, 'g'), sub.fake)` replaces every
occurrence of the single character, i.e. maps it over the brand string. -/
def detectCharacterSubstitution (domain : String) : Bool :=
  brands.any fun brand => substitutions.any fun sub =>
    let fakeBrand := brand.data.map fun c => if c = sub.1 then sub.2 else c
    includesL fakeBrand domain.data && fakeBrand ≠ brand.data

/-- The popular-brand list of background.js lines 316-320. -/
def popularBrands : List String :=
  ["paypal", "amazon", "google", "facebook", "microsoft",
   "apple", "netflix", "instagram", "twitter", "linkedin",
   "ebay", "walmart", "target", "chase", "wellsfargo"]

/-- background.js `checkBrandImpersonation`: the for-loop returning 50 at the
first matching brand is the `any` test; then the PayPal table (80), then
generic character substitution (60), else 0. -/
def checkBrandImpersonation (domain : String) : Int :=
  if popularBrands.any (fun brand =>
      strIncludes domain brand
      && !(strEndsWith domain (brand ++ ".com"))
      && !(strEndsWith domain (brand ++ ".org"))) then 50
  else if detectPayPalImpersonation domain then 80
  else if detectCharacterSubstitution domain then 60
  else 0

/-- The suspicious TLD list of background.js line 213. -/
def suspiciousTlds : List String := [".tk", ".ml", ".ga", ".cf", ".gq"]

/-- background.js `analyzeDomain`.  JS `domain.split('.').length` equals the
number of dot characters plus one (split on a one-character separator), so
`subdomains = labels - 2` is the dot count minus one, computed in `Int`
exactly as JS arithmetic does (it can be negative). -/
def analyzeDomain (domain : String) : Int :=
  (if suspiciousTlds.any (fun tld => strEndsWith domain tld) then 30 else 0)
  + (if domain.data.length > 30 then 15 else 0)
  + (if (3 : Int) < (domain.data.count '.' : Int) + 1 - 2 then 20 else 0)
  + (if (domain.data.any fun c => '0' ≤ c && c ≤ '9')
        && (domain.data.any fun c => 'a' ≤ c && c ≤ 'z') then 10 else 0)
  + (if detectHomograph domain then 40 else 0)
  + checkBrandImpersonation domain

/-- The URL-shortener host list of background.js line 270. -/
def shorteners : List String := ["bit.ly", "tinyurl.com", "t.co", "goo.gl", "ow.ly"]

/-- background.js `analyzeUrlStructure`.  The hostname keyword checks are on
the raw `urlObj.hostname`, exactly as in the source. -/
def analyzeUrlStructure (u : URLObj) : Int :=
  (if u.protocol == "http:"
      && (strIncludes u.hostname "login"
          || strIncludes u.hostname "secure"
          || strIncludes u.hostname "account"
          || strIncludes u.hostname "bank"
          || strIncludes u.hostname "paypal"
          || strIncludes u.hostname "paypa") then 40 else 0)
  + (if shorteners.contains u.hostname then 25 else 0)
  + (if strIncludes u.pathname ".." then 30 else 0)
  + (if u.href.data.length > 100 then 10 else 0)
  + (if strIncludes u.search "redirect" || strIncludes u.search "url=" then 15 else 0)

/-- background.js `analyzePatterns`: 20 points per matching phishing regex. -/
def analyzePatterns (url : String) : Int :=
  phishingPatterns.foldr (fun p acc => (if regexTest p url then 20 else 0) + acc) 0

/-- background.js `calculateRiskScore` (lines 163-206), with the two local
bindings `domain = hostname.toLowerCase()` and `fullUrl = href.toLowerCase()`
inlined.  The first parameter is the detector's `suspiciousDomains` set,
modelled as the list of its elements. -/
def calculateRiskScore (suspiciousDomains : List String) (u : URLObj) : Int :=
  if lowerStr u.hostname ∈ whitelistedDomains then 0
  else
    min ((if lowerStr u.hostname ∈ suspiciousDomains then 80 else 0)
         + analyzeDomain (lowerStr u.hostname)
         + analyzeUrlStructure u
         + analyzePatterns (lowerStr u.href)) 100

/-- The action applied by background.js `analyzeUrl` (lines 122-130):
block above 60, warn above 30, otherwise allow. -/
inductive Action where
  | ALLOW
  | WARN
  | BLOCK
deriving DecidableEq

/-- The decision policy of background.js `analyzeUrl` lines 122-130. -/
def decideAction (riskScore : Int) : Action :=
  if riskScore > 60 then .BLOCK
  else if riskScore > 30 then .WARN
  else .ALLOW

/-- The `stats` object persisted by `updateDetectionStats`. -/
structure Stats where
  sitesBlocked : Int
  threatsDetected : Int
  alertsShown : Int
deriving DecidableEq

/-- The per-tab record written by `analyzeUrl` (lines 139-146). -/
structure AnalysisRecord where
  url : String
  domain : String
  riskScore : Int
  timestamp : Nat
deriving DecidableEq

/-- The detector's mutable state: the in-memory `suspiciousDomains` set, its
persisted copy in `chrome.storage.local` (written by
`saveSuspiciousDomains`), the persisted `stats` counters, and the per-tab
analysis records keyed by tab id. -/
structure BGState where
  suspiciousDomains : List String
  storedSuspiciousDomains : List String
  stats : Stats
  analysis : Nat → Option AnalysisRecord

/-- JS `Set.add`: insert if not already present. -/
def addDomain (l : List String) (d : String) : List String :=
  if d ∈ l then l else d :: l

/-- background.js `blockPhishingSite` lines 614-619: add the hostname of the
blocked URL to `suspiciousDomains` and persist the set (the page-replacing
script injection is presentation and not modelled).  `new URL(url).hostname`
re-parses the same string `analyzeUrl` parsed, hence equals `u.hostname`. -/
def blockPhishingSite (st : BGState) (u : URLObj) : BGState :=
  { st with
    suspiciousDomains := addDomain st.suspiciousDomains u.hostname,
    storedSuspiciousDomains := addDomain st.suspiciousDomains u.hostname }

/-- background.js `updateDetectionStats` lines 768-786. -/
def updateDetectionStats (st : BGState) (riskScore : Int) : BGState :=
  { st with stats :=
    { sitesBlocked := st.stats.sitesBlocked + (if riskScore > 60 then 1 else 0),
      threatsDetected := st.stats.threatsDetected + (if riskScore > 30 then 1 else 0),
      alertsShown := st.stats.alertsShown + (if riskScore > 30 then 1 else 0) } }

/-- background.js `analyzeUrl` lines 110-152.  `parsed` is the outcome of
`new URL(url)` (`none` when the constructor throws).  On a parse failure the
catch block only logs, so the state is returned unchanged and no action is
taken (`none`).  On success the state effects are `blockPhishingSite` (only
above 60), `updateDetectionStats`, and the write of the per-tab
`AnalysisRecord`; `showPhishingAlert`, `warnUser` and `updateBadge` are pure
presentation and not modelled.  `now` stands for `Date.now()`. -/
def analyzeUrl (st : BGState) (url : String) (parsed : Option URLObj)
    (tabId : Nat) (now : Nat) : BGState × Option Action :=
  match parsed with
  | none => (st, none)
  | some u =>
    let riskScore := calculateRiskScore st.suspiciousDomains u
    let st1 := if riskScore > 60 then blockPhishingSite st u else st
    let st2 := updateDetectionStats st1 riskScore
    let st3 := { st2 with analysis := (fun t =>
      if t = tabId then some ⟨url, lowerStr u.hostname, riskScore, now⟩
      else st2.analysis t) }
    (st3, some (decideAction riskScore))

/-- content.js `isSuspiciousLink` lines 115-134, with the catch branch
modelled by the `none` case: an href that does not parse is suspicious. -/
def isSuspiciousLink (parsed : Option URLObj) : Bool :=
  match parsed with
  | none => true
  | some url =>
    if shorteners.contains url.hostname then true
    else if strIncludes url.href ".." || url.href.data.length > 100 then true
    else false

/-! Helper lemmas about the embedded functions. -/

theorem checkBrandImpersonation_nonneg (d : String) : 0 ≤ checkBrandImpersonation d := by
  unfold checkBrandImpersonation
  split_ifs <;> norm_num

theorem analyzeDomain_nonneg (d : String) : 0 ≤ analyzeDomain d := by
  have h := checkBrandImpersonation_nonneg d
  unfold analyzeDomain
  split_ifs <;> omega

theorem analyzeUrlStructure_nonneg (u : URLObj) : 0 ≤ analyzeUrlStructure u := by
  unfold analyzeUrlStructure
  split_ifs <;> norm_num

theorem foldr_pat_nonneg (ps : List (List String)) (url : String) :
    0 ≤ ps.foldr (fun p acc => (if regexTest p url then (20 : Int) else 0) + acc) 0 := by
  induction ps with
  | nil => simp
  | cons p ps ih =>
    simp only [List.foldr_cons]
    split_ifs <;> omega

theorem analyzePatterns_nonneg (url : String) : 0 ≤ analyzePatterns url :=
  foldr_pat_nonneg phishingPatterns url

/-- The position-based substring test agrees with list infix. -/
theorem includesL_iff {pat s : List Char} : includesL pat s = true ↔ pat <:+: s := by
  unfold includesL
  rw [List.any_eq_true]
  constructor
  · rintro ⟨i, _, hp⟩
    rw [List.isPrefixOf_iff_prefix] at hp
    exact hp.isInfix.trans (List.drop_suffix i s).isInfix
  · rintro ⟨pre, post, rfl⟩
    refine ⟨pre.length, ?_, ?_⟩
    · rw [List.mem_range]
      simp [List.length_append]
      omega
    · rw [List.isPrefixOf_iff_prefix, List.append_assoc, List.drop_left]
      exact List.prefix_append pat post

/-- A word-sequence match survives extending the input to any superstring. -/
theorem containsSeq_mono : ∀ (p : List (List Char)) {s t : List Char},
    s <:+: t → containsSeq p s = true → containsSeq p t = true := by
  intro p
  induction p with
  | nil => intro s t _ _; rfl
  | cons w ws ih =>
    intro s t hst hc
    obtain ⟨pre, post, rfl⟩ := hst
    simp only [containsSeq] at hc ⊢
    rw [List.any_eq_true] at hc ⊢
    obtain ⟨i, hi, hcond⟩ := hc
    rw [List.mem_range] at hi
    rw [Bool.and_eq_true] at hcond
    obtain ⟨hpre, hrest⟩ := hcond
    rw [List.isPrefixOf_iff_prefix] at hpre
    have hi' : i ≤ s.length := by omega
    refine ⟨pre.length + i, ?_, ?_⟩
    · rw [List.mem_range]
      simp [List.length_append]
      omega
    · have hdrop : (pre ++ s ++ post).drop (pre.length + i) = s.drop i ++ post := by
        rw [List.append_assoc, List.drop_append, List.drop_append_of_le_length hi']
      rw [hdrop, Bool.and_eq_true]
      constructor
      · rw [List.isPrefixOf_iff_prefix]
        exact hpre.trans (List.prefix_append _ _)
      · have hwlen : w.length ≤ (s.drop i).length := hpre.length_le
        rw [List.drop_append_of_le_length hwlen]
        exact ih ⟨[], post, by simp⟩ hrest

/-- A scoring term `if c then k else 0` can only grow when the condition
gets easier to satisfy. -/
theorem ite_le_ite {c1 c2 : Prop} [Decidable c1] [Decidable c2] {k : Int}
    (hk : 0 ≤ k) (himp : c1 → c2) : (if c1 then k else 0) ≤ (if c2 then k else 0) := by
  split_ifs with h1 h2
  · exact le_rfl
  · exact absurd (himp h1) h2
  · exact hk
  · exact le_rfl

theorem foldr_pat_mono (ps : List (List String)) {a b : String}
    (h : (lowerStr a).data <:+: (lowerStr b).data) :
    ps.foldr (fun p acc => (if regexTest p a then (20 : Int) else 0) + acc) 0
      ≤ ps.foldr (fun p acc => (if regexTest p b then (20 : Int) else 0) + acc) 0 := by
  induction ps with
  | nil => simp
  | cons p ps ih =>
    simp only [List.foldr_cons]
    exact add_le_add (ite_le_ite (by norm_num) fun hm => containsSeq_mono _ h hm) ih

theorem strIncludes_mono {a b pat : String} (h : a.data <:+: b.data)
    (hm : strIncludes a pat = true) : strIncludes b pat = true := by
  unfold strIncludes at hm ⊢
  rw [includesL_iff] at hm ⊢
  exact hm.trans h

theorem analyzeUrlStructure_mono (u1 u2 : URLObj)
    (hproto : u1.protocol = u2.protocol) (hhost : u1.hostname = u2.hostname)
    (hsearch : u1.search = u2.search)
    (hpath : u1.pathname.data <:+: u2.pathname.data)
    (hhref : u1.href.data <:+: u2.href.data) :
    analyzeUrlStructure u1 ≤ analyzeUrlStructure u2 := by
  unfold analyzeUrlStructure
  rw [hproto, hhost, hsearch]
  have hlen : u1.href.data.length ≤ u2.href.data.length := hhref.length_le
  refine add_le_add (add_le_add (add_le_add (add_le_add le_rfl le_rfl) ?_) ?_) le_rfl
  · exact ite_le_ite (by norm_num) (strIncludes_mono hpath)
  · exact ite_le_ite (by norm_num) fun hx => lt_of_lt_of_le hx hlen

/-! The claims. -/

/-- C1: for every URL whose lowercased hostname is in the whitelist,
`calculateRiskScore` returns 0, whatever the other URL components and
whatever the suspicious-domain set contains. -/
theorem whitelisted_score_zero (susp : List String) (u : URLObj)
    (h : lowerStr u.hostname ∈ whitelistedDomains) :
    calculateRiskScore susp u = 0 := by
  unfold calculateRiskScore
  rw [if_pos h]

/-- Witness for C1: the spec's own example, a whitelisted host with a
phishing-looking path, even with the domain also in the suspicious set. -/
theorem whitelisted_score_zero_witness :
    lowerStr "google.com" ∈ whitelistedDomains ∧
      calculateRiskScore ["google.com"]
        ⟨"https:", "google.com", "/urgent-verify-account", "",
         "https://google.com/urgent-verify-account"⟩ = 0 :=
  ⟨by decide, whitelisted_score_zero ["google.com"]
    ⟨"https:", "google.com", "/urgent-verify-account", "",
     "https://google.com/urgent-verify-account"⟩ (by decide)⟩

/-- C2: for every suspicious-domain set and every parsed URL, the risk score
lies in the integer interval 0 to 100. -/
theorem riskScore_in_range (susp : List String) (u : URLObj) :
    0 ≤ calculateRiskScore susp u ∧ calculateRiskScore susp u ≤ 100 := by
  have h1 := analyzeDomain_nonneg (lowerStr u.hostname)
  have h2 := analyzeUrlStructure_nonneg u
  have h3 := analyzePatterns_nonneg (lowerStr u.href)
  unfold calculateRiskScore
  split_ifs with hw hs
  · norm_num
  · exact ⟨le_min (by omega) (by norm_num), min_le_right _ _⟩
  · exact ⟨le_min (by omega) (by norm_num), min_le_right _ _⟩

/-- C3: the decision function maps a score to exactly one action with the
stricter threshold pair: BLOCK above 60, WARN above 30 and at most 60,
ALLOW otherwise. -/
theorem decideAction_thresholds (s : Int) :
    (decideAction s = .BLOCK ↔ 60 < s) ∧
    (decideAction s = .WARN ↔ 30 < s ∧ s ≤ 60) ∧
    (decideAction s = .ALLOW ↔ s ≤ 30) := by
  unfold decideAction
  split_ifs with h1 h2
  · exact ⟨⟨fun _ => h1, fun _ => rfl⟩,
      ⟨fun hh => (nomatch hh), fun hh => absurd hh.2 (by omega)⟩,
      ⟨fun hh => (nomatch hh), fun hh => absurd hh (by omega)⟩⟩
  · exact ⟨⟨fun hh => (nomatch hh), fun hh => absurd hh h1⟩,
      ⟨fun _ => ⟨h2, by omega⟩, fun _ => rfl⟩,
      ⟨fun hh => (nomatch hh), fun hh => absurd hh (by omega)⟩⟩
  · exact ⟨⟨fun hh => (nomatch hh), fun hh => absurd hh h1⟩,
      ⟨fun hh => (nomatch hh), fun hh => absurd hh.1 h2⟩,
      ⟨fun _ => by omega, fun _ => rfl⟩⟩

/-- C4: on a BLOCK decision `analyzeUrl` adds the hostname to the
suspicious-domain set, persists it, and increments `sitesBlocked`,
`threatsDetected` and `alertsShown`; on WARN only `threatsDetected` and
`alertsShown` grow and the suspicious-domain set (in memory and persisted)
is untouched; on ALLOW nothing of these changes. -/
theorem analyzeUrl_effects (st : BGState) (url : String) (u : URLObj)
    (tabId now : Nat) :
    ((analyzeUrl st url (some u) tabId now).1.suspiciousDomains
      = if decideAction (calculateRiskScore st.suspiciousDomains u) = .BLOCK
        then addDomain st.suspiciousDomains u.hostname
        else st.suspiciousDomains)
    ∧ ((analyzeUrl st url (some u) tabId now).1.storedSuspiciousDomains
      = if decideAction (calculateRiskScore st.suspiciousDomains u) = .BLOCK
        then addDomain st.suspiciousDomains u.hostname
        else st.storedSuspiciousDomains)
    ∧ ((analyzeUrl st url (some u) tabId now).1.stats.sitesBlocked
      = st.stats.sitesBlocked
        + (if decideAction (calculateRiskScore st.suspiciousDomains u) = .BLOCK
           then 1 else 0))
    ∧ ((analyzeUrl st url (some u) tabId now).1.stats.threatsDetected
      = st.stats.threatsDetected
        + (if decideAction (calculateRiskScore st.suspiciousDomains u) = .ALLOW
           then 0 else 1))
    ∧ ((analyzeUrl st url (some u) tabId now).1.stats.alertsShown
      = st.stats.alertsShown
        + (if decideAction (calculateRiskScore st.suspiciousDomains u) = .ALLOW
           then 0 else 1)) := by
  by_cases h60 : calculateRiskScore st.suspiciousDomains u > 60 <;>
    by_cases h30 : calculateRiskScore st.suspiciousDomains u > 30
  · simp [analyzeUrl, blockPhishingSite, updateDetectionStats, decideAction, h60, h30]
  · omega
  · simp [analyzeUrl, blockPhishingSite, updateDetectionStats, decideAction, h60, h30]
  · simp [analyzeUrl, blockPhishingSite, updateDetectionStats, decideAction, h60, h30]

/-- C5: the spec's concrete example http://paypa1-secure-login.tk/verify
scores exactly 100 (the raw sub-score sum, 180, exceeds 100 and is capped)
and is blocked. -/
theorem paypal_example_score :
    calculateRiskScore []
      ⟨"http:", "paypa1-secure-login.tk", "/verify", "",
       "http://paypa1-secure-login.tk/verify"⟩ = 100
    ∧ decideAction (calculateRiskScore []
        ⟨"http:", "paypa1-secure-login.tk", "/verify", "",
         "http://paypa1-secure-login.tk/verify"⟩) = .BLOCK
    ∧ 100 < analyzeDomain (lowerStr "paypa1-secure-login.tk")
        + analyzeUrlStructure
            ⟨"http:", "paypa1-secure-login.tk", "/verify", "",
             "http://paypa1-secure-login.tk/verify"⟩
        + analyzePatterns (lowerStr "http://paypa1-secure-login.tk/verify") := by
  refine ⟨by decide, by decide, by decide⟩

/-- C6 counterexample: adding one triggering feature to a URL — here the
triggering brand substring "amazon" inserted into the hostname — lowers the
score from 80 to 50, because `checkBrandImpersonation` is first-match-wins:
the generic popular-brand rule (50) now fires and preempts the PayPal
look-alike rule (80) that fired for the original hostname. -/
theorem score_mono_counterexample :
    calculateRiskScore []
        ⟨"https:", "amazonpapyal.com", "/", "", "https://amazonpapyal.com/"⟩
      < calculateRiskScore []
        ⟨"https:", "papyal.com", "/", "", "https://papyal.com/"⟩ := by
  decide

/-- C6 amended: the score is monotone under extending the path or the full
URL (e.g. appending a phishing keyword to the path): if two URLs agree on
protocol, hostname and query, and the first URL's path and full string occur
inside the second's, the score does not decrease.  (Monotonicity fails for
hostname edits — see the counterexample.) -/
theorem riskScore_mono_url_extension (susp : List String) (u1 u2 : URLObj)
    (hproto : u1.protocol = u2.protocol) (hhost : u1.hostname = u2.hostname)
    (hsearch : u1.search = u2.search)
    (hpath : u1.pathname.data <:+: u2.pathname.data)
    (hhref : u1.href.data <:+: u2.href.data) :
    calculateRiskScore susp u1 ≤ calculateRiskScore susp u2 := by
  have hd : lowerStr u1.hostname = lowerStr u2.hostname := by rw [hhost]
  have h1 : analyzeUrlStructure u1 ≤ analyzeUrlStructure u2 :=
    analyzeUrlStructure_mono u1 u2 hproto hhost hsearch hpath hhref
  have hl : (lowerStr (lowerStr u1.href)).data <:+: (lowerStr (lowerStr u2.href)).data :=
    List.IsInfix.map Char.toLower (List.IsInfix.map Char.toLower hhref)
  have h2 : analyzePatterns (lowerStr u1.href) ≤ analyzePatterns (lowerStr u2.href) :=
    foldr_pat_mono phishingPatterns hl
  unfold calculateRiskScore
  rw [hd]
  by_cases hw : lowerStr u2.hostname ∈ whitelistedDomains
  · simp only [if_pos hw]
    exact le_rfl
  · simp only [if_neg hw]
    exact min_le_min (add_le_add (add_le_add (add_le_add le_rfl le_rfl) h1) h2) le_rfl

/-- Witness for the amended C6: appending the phishing keyword
"update-payment" to the path does not decrease the score. -/
theorem riskScore_mono_url_extension_witness :
    ("http:" : String) = "http:" ∧ ("bank-example.net" : String) = "bank-example.net"
    ∧ ("" : String) = ""
    ∧ ("/a" : String).data <:+: ("/a/update-payment" : String).data
    ∧ ("http://bank-example.net/a" : String).data
        <:+: ("http://bank-example.net/a/update-payment" : String).data
    ∧ calculateRiskScore []
        ⟨"http:", "bank-example.net", "/a", "", "http://bank-example.net/a"⟩
      ≤ calculateRiskScore []
        ⟨"http:", "bank-example.net", "/a/update-payment", "",
         "http://bank-example.net/a/update-payment"⟩ :=
  ⟨rfl, rfl, rfl, by decide, by decide,
    riskScore_mono_url_extension []
      ⟨"http:", "bank-example.net", "/a", "", "http://bank-example.net/a"⟩
      ⟨"http:", "bank-example.net", "/a/update-payment", "",
       "http://bank-example.net/a/update-payment"⟩
      rfl rfl rfl (by decide) (by decide)⟩

/-- C7 counterexample: for http://paypa1-secure-login.tk/verify the
phishing-language pattern sub-score is not 0. -/
theorem pattern_score_not_zero :
    analyzePatterns "http://paypa1-secure-login.tk/verify" ≠ 0 := by
  decide

/-- C7 amended: the pattern sub-score for this URL is 20, because exactly
the regex secure.*verify matches: "secure" occurs in the hostname and
"verify" later in the path of the lowercased full URL. -/
theorem pattern_score_twenty :
    analyzePatterns "http://paypa1-secure-login.tk/verify" = 20
    ∧ regexTest ["secure", "verify"] "http://paypa1-secure-login.tk/verify" = true := by
  refine ⟨by decide, by decide⟩

/-- C8: when the URL string does not parse, `analyzeUrl` leaves the whole
state (suspicious domains, persisted copy, counters, per-tab records)
unchanged and issues no action at all. -/
theorem malformed_url_no_effect (st : BGState) (url : String) (tabId now : Nat) :
    analyzeUrl st url none tabId now = (st, none) := rfl

/-- C9: a URL whose lowercased hostname is a known suspicious domain and not
whitelisted always scores at least 80, hence is always blocked under the
score-above-60 threshold. -/
theorem suspicious_domain_blocks (susp : List String) (u : URLObj)
    (hs : lowerStr u.hostname ∈ susp)
    (hw : lowerStr u.hostname ∉ whitelistedDomains) :
    80 ≤ calculateRiskScore susp u
    ∧ decideAction (calculateRiskScore susp u) = .BLOCK := by
  have h1 := analyzeDomain_nonneg (lowerStr u.hostname)
  have h2 := analyzeUrlStructure_nonneg u
  have h3 := analyzePatterns_nonneg (lowerStr u.href)
  have hscore : 80 ≤ calculateRiskScore susp u := by
    unfold calculateRiskScore
    rw [if_neg hw, if_pos hs]
    exact le_min (by omega) (by norm_num)
  refine ⟨hscore, ?_⟩
  unfold decideAction
  rw [if_pos (by omega : calculateRiskScore susp u > 60)]

/-- Witness for C9: a reported domain on a clean https URL. -/
theorem suspicious_domain_blocks_witness :
    (lowerStr "phish.example" ∈ ["phish.example"]
      ∧ lowerStr "phish.example" ∉ whitelistedDomains)
    ∧ (80 ≤ calculateRiskScore ["phish.example"]
          ⟨"https:", "phish.example", "/", "", "https://phish.example/"⟩
      ∧ decideAction (calculateRiskScore ["phish.example"]
          ⟨"https:", "phish.example", "/", "", "https://phish.example/"⟩) = .BLOCK) :=
  ⟨⟨by decide, by decide⟩,
    suspicious_domain_blocks ["phish.example"]
      ⟨"https:", "phish.example", "/", "", "https://phish.example/"⟩
      (by decide) (by decide)⟩

/-- C10: the content analyzer's link check fails closed: an href that cannot
be parsed as a URL is always flagged as suspicious. -/
theorem unparseable_link_flagged : isSuspiciousLink none = true := rfl

end Phishing
